import Mathlib

/-!
Shallow embedding of `src/waftools/defines.py`, a waf build tool with two
entry points:

* `options(ctx)` registers a `--build-debug` command-line flag
  (`action='store_true'`, `default=False`, with a help text);
* `configure(ctx)` reads the parsed flag and, when it is true, calls
  `ctx.env.append_value('DEFINES', 'BUILD_DEBUG')`.

The build environment (`ctx.env`, waf's ConfigSet) is modelled as a mapping
from variable names to lists of string values; `append_value` appends one
value to the list stored under a variable and leaves every other variable
unchanged.  The options context is modelled as the ordered list of option
specifications registered so far, together with whatever environment the
host context carries, so that frame properties of `options` are statable.
-/

/-- Specification of one command-line option as passed to the host
framework's `add_option`: its name, its action string, its default value
and its help text. -/
structure OptionSpec where
  name : String
  action : String
  default : Bool
  help : String
deriving DecidableEq, Repr

/-- Build-environment configuration set mirroring waf's ConfigSet
(`ctx.env`): a mapping from variable names to lists of string values. -/
structure ConfigSet where
  get : String → List String

/-- Embedding of `ConfigSet.append_value(var, val)`: appends one value to
the list stored under `var`, leaving every other variable unchanged. -/
def ConfigSet.append_value (e : ConfigSet) (var val : String) : ConfigSet :=
  ⟨fun k => if k = var then e.get k ++ [val] else e.get k⟩

/-- Context handed to the options phase: the ordered list of option
specifications registered so far, plus the environment the host context
carries. -/
structure OptionsCtx where
  opts : List OptionSpec
  env : ConfigSet

/-- Embedding of `ctx.add_option(...)`: registers one more option
specification at the end of the recognized option set. -/
def OptionsCtx.add_option (ctx : OptionsCtx) (name action : String)
    (default : Bool) (help : String) : OptionsCtx :=
  { ctx with opts := ctx.opts ++ [⟨name, action, default, help⟩] }

/-- Embedding of `options(ctx)` from `src/waftools/defines.py`: registers
the `--build-debug` flag with `action='store_true'`, `default=False` and
its help text. -/
def options (ctx : OptionsCtx) : OptionsCtx :=
  ctx.add_option "--build-debug" "store_true" false
    "Mark a build to include debug code"

/-- Option specification registered by `options`, spelled out once. -/
def buildDebugSpec : OptionSpec :=
  ⟨"--build-debug", "store_true", false, "Mark a build to include debug code"⟩

/-- Modelled from the spec: the host framework's (optparse) parsing of a
`store_true` boolean option, which is not part of `src/` — presence of the
flag's name on the command line sets the parsed value to true, absence
leaves the declared default. -/
def parseFlag (s : OptionSpec) (argv : List String) : Bool :=
  if s.name ∈ argv then true else s.default

/-- Parsed option values exposed on the configure context
(`ctx.options`). -/
structure ParsedOptions where
  build_debug : Bool
deriving DecidableEq, Repr

/-- Context handed to the configure phase: the parsed options and the
mutable build environment. -/
structure ConfigureCtx where
  options : ParsedOptions
  env : ConfigSet

/-- Embedding of `configure(ctx)` from `src/waftools/defines.py`: when the
parsed `--build-debug` flag is true, append the literal symbol
`BUILD_DEBUG` to the `DEFINES` list of the environment; otherwise do
nothing. -/
def configure (ctx : ConfigureCtx) : ConfigureCtx :=
  if ctx.options.build_debug then
    { ctx with env := ctx.env.append_value "DEFINES" "BUILD_DEBUG" }
  else
    ctx

/-- Embedding of `options` with an explicit error channel: the source body
is a single `add_option` call with no failure branch, so no path returns
an error. -/
def optionsE (ctx : OptionsCtx) : Except String OptionsCtx :=
  Except.ok (ctx.add_option "--build-debug" "store_true" false
    "Mark a build to include debug code")

/-- Embedding of `configure` with an explicit error channel: the source
body is a single conditional append with no failure branch, so no path
returns an error. -/
def configureE (ctx : ConfigureCtx) : Except String ConfigureCtx :=
  if ctx.options.build_debug then
    Except.ok { ctx with env := ctx.env.append_value "DEFINES" "BUILD_DEBUG" }
  else
    Except.ok ctx

/-- Helper: the `DEFINES` list after `configure` is the initial list
followed by `["BUILD_DEBUG"]` when the flag is true and by nothing
otherwise. -/
theorem configure_defines_eq (ctx : ConfigureCtx) :
    (configure ctx).env.get "DEFINES"
      = ctx.env.get "DEFINES"
        ++ (if ctx.options.build_debug then ["BUILD_DEBUG"] else []) := by
  by_cases h : ctx.options.build_debug <;>
    simp [configure, ConfigSet.append_value, h]

/-- C1: when the parsed `--build-debug` flag is true, `configure` appends
exactly one entry, the literal symbol `BUILD_DEBUG`, to the end of the
environment's `DEFINES` list. -/
theorem configure_true_appends_build_debug (ctx : ConfigureCtx)
    (h : ctx.options.build_debug = true) :
    (configure ctx).env.get "DEFINES"
      = ctx.env.get "DEFINES" ++ ["BUILD_DEBUG"] := by
  rw [configure_defines_eq, h]
  simp

/-- C1 witness: with the flag true and initial `DEFINES` list `["FOO"]`,
the resulting list is `["FOO", "BUILD_DEBUG"]`. -/
theorem configure_true_appends_build_debug_witness :
    (configure ⟨⟨true⟩, ⟨fun k => if k = "DEFINES" then ["FOO"] else []⟩⟩).env.get "DEFINES"
      = ["FOO", "BUILD_DEBUG"] := by
  have h := configure_true_appends_build_debug
    ⟨⟨true⟩, ⟨fun k => if k = "DEFINES" then ["FOO"] else []⟩⟩ rfl
  simpa using h

/-- C2: when the parsed `--build-debug` flag is false, `configure` leaves
the `DEFINES` list exactly unchanged, for every initial contents. -/
theorem configure_false_leaves_defines (ctx : ConfigureCtx)
    (h : ctx.options.build_debug = false) :
    (configure ctx).env.get "DEFINES" = ctx.env.get "DEFINES" := by
  rw [configure_defines_eq, h]
  simp

/-- C2 witness: with the flag false and initial `DEFINES` list `[]`, the
resulting list is `[]`. -/
theorem configure_false_leaves_defines_witness :
    (configure ⟨⟨false⟩, ⟨fun _ => []⟩⟩).env.get "DEFINES" = [] :=
  configure_false_leaves_defines ⟨⟨false⟩, ⟨fun _ => []⟩⟩ rfl

/-- C3: `options` registers `--build-debug` as a boolean `store_true`
option with default false; under the host's parsing of such an option its
mere presence on the command line sets it true, it is false when absent,
and with the absent-flag parse result `configure` leaves the `DEFINES`
list unchanged. -/
theorem build_debug_flag_boolean_default_false
    (c0 : OptionsCtx) (argv : List String) :
    (options c0).opts = c0.opts ++ [buildDebugSpec]
    ∧ buildDebugSpec.action = "store_true"
    ∧ buildDebugSpec.default = false
    ∧ parseFlag buildDebugSpec argv = decide ("--build-debug" ∈ argv)
    ∧ parseFlag buildDebugSpec [] = false
    ∧ ∀ ctx : ConfigureCtx,
        ctx.options.build_debug = parseFlag buildDebugSpec [] →
          (configure ctx).env.get "DEFINES" = ctx.env.get "DEFINES" := by
  refine ⟨rfl, rfl, rfl, ?_, rfl, ?_⟩
  · by_cases h : "--build-debug" ∈ argv <;>
      simp [parseFlag, buildDebugSpec, h]
  · intro ctx h
    rw [configure_defines_eq, h]
    simp [parseFlag, buildDebugSpec]

/-- C3 witness: at concrete inputs, the flag parses true exactly when
present and false when the command line is empty. -/
theorem build_debug_flag_boolean_default_false_witness :
    parseFlag buildDebugSpec ["--build-debug"] = true
    ∧ parseFlag buildDebugSpec [] = false := by
  refine ⟨?_, (build_debug_flag_boolean_default_false ⟨[], ⟨fun _ => []⟩⟩ []).2.2.2.2.1⟩
  have h := (build_debug_flag_boolean_default_false
    ⟨[], ⟨fun _ => []⟩⟩ ["--build-debug"]).2.2.2.1
  simpa using h

/-- C4: `configure` is not idempotent when the flag is true: two calls on
the same environment append the `BUILD_DEBUG` symbol twice, with no
de-duplication. -/
theorem configure_twice_appends_twice (ctx : ConfigureCtx)
    (h : ctx.options.build_debug = true) :
    (configure (configure ctx)).env.get "DEFINES"
      = ctx.env.get "DEFINES" ++ ["BUILD_DEBUG", "BUILD_DEBUG"] := by
  have hopts : (configure ctx).options = ctx.options := by
    by_cases hb : ctx.options.build_debug <;> simp [configure, hb]
  rw [configure_defines_eq, hopts, h, configure_defines_eq, h]
  simp

/-- C4 witness: with the flag true and initial `DEFINES` list `[]`, two
calls produce `["BUILD_DEBUG", "BUILD_DEBUG"]`. -/
theorem configure_twice_appends_twice_witness :
    (configure (configure ⟨⟨true⟩, ⟨fun _ => []⟩⟩)).env.get "DEFINES"
      = ["BUILD_DEBUG", "BUILD_DEBUG"] := by
  have h := configure_twice_appends_twice ⟨⟨true⟩, ⟨fun _ => []⟩⟩ rfl
  simpa using h

/-- C5: over a single call to `configure`, the `DEFINES` list gains the
debug symbol at most once — exactly once when the flag is true and never
when it is false — so its count of `BUILD_DEBUG` grows by at most one. -/
theorem configure_appends_at_most_once (ctx : ConfigureCtx) :
    (configure ctx).env.get "DEFINES"
      = ctx.env.get "DEFINES"
        ++ (if ctx.options.build_debug then ["BUILD_DEBUG"] else [])
    ∧ ((configure ctx).env.get "DEFINES").count "BUILD_DEBUG"
        ≤ (ctx.env.get "DEFINES").count "BUILD_DEBUG" + 1 := by
  refine ⟨configure_defines_eq ctx, ?_⟩
  rw [configure_defines_eq]
  by_cases h : ctx.options.build_debug <;> simp [h, List.count_append]

/-- C6: `configure` only ever appends to the `DEFINES` list: for every
initial list and every flag value, the initial list is a prefix of the
resulting list, with existing entries neither removed, reordered nor
rewritten. -/
theorem configure_initial_defines_preserved (ctx : ConfigureCtx) :
    ∃ tail, (configure ctx).env.get "DEFINES"
      = ctx.env.get "DEFINES" ++ tail :=
  ⟨_, configure_defines_eq ctx⟩

/-- C7: neither `options` nor `configure` has a failure branch: on every
well-formed context both embeddings with an explicit error channel return
a successful result. -/
theorem operations_never_fail (octx : OptionsCtx) (cctx : ConfigureCtx) :
    (∃ r, optionsE octx = Except.ok r)
    ∧ (∃ r, configureE cctx = Except.ok r) := by
  refine ⟨⟨_, rfl⟩, ?_⟩
  by_cases h : cctx.options.build_debug <;> simp [configureE, h]

/-- C8: `options` appends exactly one option specification — name
`--build-debug`, action `store_true`, default false, with a help text —
to the context's recognized option set, and leaves the environment it
carries (in particular its `DEFINES` list) untouched. -/
theorem options_registers_one_flag (ctx : OptionsCtx) :
    (options ctx).opts = ctx.opts ++ [buildDebugSpec]
    ∧ (options ctx).env = ctx.env
    ∧ (options ctx).env.get "DEFINES" = ctx.env.get "DEFINES" :=
  ⟨rfl, rfl, rfl⟩

/-- C9: `configure` mutates only the `DEFINES` variable of the
environment: every other environment variable and the parsed option
values themselves are unchanged, for either flag value. -/
theorem configure_frame (ctx : ConfigureCtx) (k : String)
    (h : k ≠ "DEFINES") :
    (configure ctx).env.get k = ctx.env.get k
    ∧ (configure ctx).options = ctx.options := by
  by_cases hb : ctx.options.build_debug <;>
    simp [configure, ConfigSet.append_value, h, hb]

/-- C9 witness: with the flag true, the `CFLAGS` variable and the parsed
options are unchanged by `configure`. -/
theorem configure_frame_witness :
    (configure ⟨⟨true⟩, ⟨fun _ => ["x"]⟩⟩).env.get "CFLAGS" = ["x"]
    ∧ (configure ⟨⟨true⟩, ⟨fun _ => ["x"]⟩⟩).options = ⟨true⟩ := by
  have h := configure_frame ⟨⟨true⟩, ⟨fun _ => ["x"]⟩⟩ "CFLAGS" (by decide)
  simpa using h

/-- C10: `configure` is deterministic and its resulting `DEFINES` list
depends only on the parsed flag value and the initial `DEFINES` list: two
calls agreeing on those two inputs produce equal `DEFINES` lists. -/
theorem configure_deterministic (c1 c2 : ConfigureCtx)
    (hflag : c1.options.build_debug = c2.options.build_debug)
    (hdef : c1.env.get "DEFINES" = c2.env.get "DEFINES") :
    (configure c1).env.get "DEFINES" = (configure c2).env.get "DEFINES" := by
  rw [configure_defines_eq, configure_defines_eq, hflag, hdef]

/-- C10 witness: two contexts sharing the flag value and the `DEFINES`
list but differing elsewhere produce the same resulting `DEFINES` list. -/
theorem configure_deterministic_witness :
    (configure ⟨⟨true⟩, ⟨fun _ => []⟩⟩).env.get "DEFINES"
      = (configure ⟨⟨true⟩, ⟨fun k => if k = "DEFINES" then [] else ["y"]⟩⟩).env.get "DEFINES" :=
  configure_deterministic
    ⟨⟨true⟩, ⟨fun _ => []⟩⟩
    ⟨⟨true⟩, ⟨fun k => if k = "DEFINES" then [] else ["y"]⟩⟩
    rfl (by simp)
